import Mathlib

/-!
Verification of the image fit/compose logic of `app_transform.py`.

The script reads each image, proposes a destination resolution that fits a
fixed frame (`resize_type`), computes centering offsets and a gray canvas
(`add_pip_vars`), and pastes the resized image onto the canvas
(`process_image`).  Python float arithmetic is modelled over `ℚ`; Python's
`int()` conversion (truncation toward zero) is `pyInt`.
-/

/-- Python `int()` on a rational value: truncation toward zero.
`Int` division `/` here is euclidean division, which on a nonnegative
numerator agrees with floor division, so the negative case is negated. -/
def pyInt (q : ℚ) : ℤ :=
  if q.num < 0 then -(-q.num / (q.den : ℤ)) else q.num / (q.den : ℤ)

theorem pyInt_eq_floor {q : ℚ} (h : 0 ≤ q) : pyInt q = ⌊q⌋ := by
  have h0 : 0 ≤ q.num := Rat.num_nonneg.mpr h
  rw [pyInt, if_neg (not_lt.mpr h0), Rat.floor_def]

theorem pyInt_nonneg {q : ℚ} (h : 0 ≤ q) : 0 ≤ pyInt q := by
  rw [pyInt_eq_floor h]
  exact Int.floor_nonneg.mpr h

/-- An ordered pair (height, width), as read from `img.shape[:2]` or the
`ig_defined_res` tuple. -/
structure Dimensions where
  height : ℕ
  width : ℕ
deriving DecidableEq

/-- The `'shrink'` / `'scale'` strings stored in `proposed_resize_dir`. -/
inductive ResizeDir where
  | shrink
  | scale
deriving DecidableEq

/-- The numeric fields that `resize_type` stores into `img_vars`
(the decoded pixel buffer `img_obj` itself is external and omitted). -/
structure FitPlan where
  img_res : ℕ × ℕ
  img_aspect_ratio : ℚ
  defined_res : Dimensions
  screen_factor : ℚ
  proposed_res : ℤ × ℤ
  proposed_resize_dir : ResizeDir
  scale_tolerance : ℚ
  proposed_resize_factor : ℤ
  resize_validity : Option Bool
deriving DecidableEq

/-- Constant `ig_defined_res = (1920, 1080)`, height x width. -/
def ig_defined_res : Dimensions := { height := 1920, width := 1080 }

/-- Constant `screen_factor = .75`. -/
def screen_factor : ℚ := 3 / 4

/-- Constant `scale_tolerance = 2`. -/
def scale_tolerance : ℚ := 2

/-- The computation of `resize_type(file_path, defined_res, screen_factor,
scale_tolerance)`, with the decoded image replaced by its dimensions `src`.
Mirrors lines 53-87 of `app_transform.py`. -/
def resize_type (src : Dimensions) (defined_res : Dimensions)
    (screen_factor : ℚ) (scale_tolerance : ℚ) : FitPlan :=
  let img_res : ℕ × ℕ := (src.height, src.width)
  let img_aspect_ratio : ℚ := (img_res.2 : ℚ) / (img_res.1 : ℚ)
  let proposed_width : ℤ := pyInt (screen_factor * (defined_res.width : ℚ))
  let proposed_height : ℤ := pyInt ((proposed_width : ℚ) / img_aspect_ratio)
  let proposed_res : ℤ × ℤ :=
    if proposed_height ≤ (defined_res.height : ℤ) then
      (proposed_height, proposed_width)
    else
      let proposed_height2 : ℤ := pyInt (screen_factor * (defined_res.height : ℚ))
      let proposed_width2 : ℤ := pyInt ((proposed_height2 : ℚ) * img_aspect_ratio)
      (proposed_height2, proposed_width2)
  let proposed_resize_dir : ResizeDir :=
    if proposed_res.2 ≤ (img_res.2 : ℤ) then ResizeDir.shrink else ResizeDir.scale
  let proposed_resize_factor : ℤ := pyInt ((proposed_res.2 : ℚ) / (img_res.2 : ℚ))
  let resize_validity : Option Bool :=
    if proposed_resize_dir = ResizeDir.scale then
      (if (proposed_resize_factor : ℚ) ≤ scale_tolerance then some true else some false)
    else none
  { img_res := img_res
    img_aspect_ratio := img_aspect_ratio
    defined_res := defined_res
    screen_factor := screen_factor
    proposed_res := proposed_res
    proposed_resize_dir := proposed_resize_dir
    scale_tolerance := scale_tolerance
    proposed_resize_factor := proposed_resize_factor
    resize_validity := resize_validity }

/-- The destination computation exactly as the spec words it: candidate
width = floor(screenFactor x frameWidth), candidate height =
floor(candidateWidth / aspectRatio); accept if the height fits, otherwise
recompute height-first.  Stated with `Int.floor`, to be compared with the
truncating `resize_type` above. -/
def proposed_res_spec (src : Dimensions) (defined_res : Dimensions)
    (screen_factor : ℚ) : ℤ × ℤ :=
  let aspectRatio : ℚ := (src.width : ℚ) / (src.height : ℚ)
  let candidateWidth : ℤ := ⌊screen_factor * (defined_res.width : ℚ)⌋
  let candidateHeight : ℤ := ⌊(candidateWidth : ℚ) / aspectRatio⌋
  if candidateHeight ≤ (defined_res.height : ℤ) then
    (candidateHeight, candidateWidth)
  else
    let candidateHeight2 : ℤ := ⌊screen_factor * (defined_res.height : ℚ)⌋
    (candidateHeight2, ⌊(candidateHeight2 : ℚ) * aspectRatio⌋)

theorem resize_type_proposed_res_eq (src defined_res : Dimensions)
    (sf tol : ℚ) (hh : 0 < src.height) (hw : 0 < src.width) (hsf : 0 ≤ sf) :
    (resize_type src defined_res sf tol).proposed_res =
      proposed_res_spec src defined_res sf := by
  have hhq : (0 : ℚ) < (src.height : ℚ) := by exact_mod_cast hh
  have hwq : (0 : ℚ) < (src.width : ℚ) := by exact_mod_cast hw
  have har : 0 < (src.width : ℚ) / (src.height : ℚ) := div_pos hwq hhq
  have h1 : 0 ≤ sf * (defined_res.width : ℚ) :=
    mul_nonneg hsf (Nat.cast_nonneg _)
  have h2 : 0 ≤ (((⌊sf * (defined_res.width : ℚ)⌋ : ℤ) : ℚ)) / ((src.width : ℚ) / (src.height : ℚ)) :=
    div_nonneg (by exact_mod_cast Int.floor_nonneg.mpr h1) har.le
  have h3 : 0 ≤ sf * (defined_res.height : ℚ) :=
    mul_nonneg hsf (Nat.cast_nonneg _)
  have h4 : 0 ≤ (((⌊sf * (defined_res.height : ℚ)⌋ : ℤ) : ℚ)) * ((src.width : ℚ) / (src.height : ℚ)) :=
    mul_nonneg (by exact_mod_cast Int.floor_nonneg.mpr h3) har.le
  simp only [resize_type, proposed_res_spec]
  rw [pyInt_eq_floor h1, pyInt_eq_floor h2, pyInt_eq_floor h3, pyInt_eq_floor h4]

/-- A pixel buffer: shape fields plus a pixel map (row, column, channel). -/
structure Canvas where
  height : ℕ
  width : ℕ
  channels : ℕ
  pixel : ℕ → ℕ → ℕ → ℕ

/-- Model of `np.full(shape=(height, width, 3), fill_value=128)`: a buffer of the
given shape with every entry equal to the fill value. -/
def np_full (height width channels : ℕ) (fill_value : ℕ) : Canvas :=
  { height := height, width := width, channels := channels
    pixel := fun _ _ _ => fill_value }

/-- The `pip_coords` dictionary `{x1, x2, y1, y2}`. -/
structure OffsetRect where
  x1 : ℤ
  x2 : ℤ
  y1 : ℤ
  y2 : ℤ
deriving DecidableEq

/-- The computation of `add_pip_vars` (lines 95-106): the gray canvas and
the centering coordinates.  `(defined_res - proposed_res)/2` is numpy float
division followed by Python `int()`, hence `pyInt`. -/
def add_pip_vars (defined_res : Dimensions) (proposed_res : ℤ × ℤ) :
    Canvas × OffsetRect :=
  let colored_image := np_full defined_res.height defined_res.width 3 128
  let y1 : ℤ := pyInt ((((defined_res.height : ℤ) - proposed_res.1 : ℤ) : ℚ) / 2)
  let x1 : ℤ := pyInt ((((defined_res.width : ℤ) - proposed_res.2 : ℤ) : ℚ) / 2)
  let x2 : ℤ := x1 + proposed_res.2
  let y2 : ℤ := y1 + proposed_res.1
  (colored_image, { x1 := x1, x2 := x2, y1 := y1, y2 := y2 })

/-- The slice assignment
`processed_img[y1:y2, x1:x2] = resized_img` of `process_image` (line 124):
inside the rectangle the pixel comes from the pasted image, outside it the
canvas is untouched. -/
def paste_region (canvas : Canvas) (coords : OffsetRect)
    (resized_img : ℕ → ℕ → ℕ → ℕ) : Canvas :=
  { canvas with
    pixel := fun y x c =>
      if coords.y1 ≤ (y : ℤ) ∧ (y : ℤ) < coords.y2 ∧
          coords.x1 ≤ (x : ℤ) ∧ (x : ℤ) < coords.x2 then
        resized_img ((y : ℤ) - coords.y1).toNat ((x : ℤ) - coords.x1).toNat c
      else canvas.pixel y x c }

/-- Rational division as Python performs it on floats: raises
`ZeroDivisionError` (here `none`) when the divisor is zero. -/
def py_div (a b : ℚ) : Option ℚ :=
  if b = 0 then none else some (a / b)

/-- Variant of `resize_type` with every float division checked, in the order the
Python code performs them: aspect ratio (by the source height), proposed
height (by the aspect ratio), resize factor (by the source width). -/
def resize_type_checked (src : Dimensions) (defined_res : Dimensions)
    (sf tol : ℚ) : Option FitPlan := do
  let img_res : ℕ × ℕ := (src.height, src.width)
  let img_aspect_ratio ← py_div (img_res.2 : ℚ) (img_res.1 : ℚ)
  let proposed_width : ℤ := pyInt (sf * (defined_res.width : ℚ))
  let ph_q ← py_div (proposed_width : ℚ) img_aspect_ratio
  let proposed_height : ℤ := pyInt ph_q
  let proposed_res : ℤ × ℤ :=
    if proposed_height ≤ (defined_res.height : ℤ) then
      (proposed_height, proposed_width)
    else
      let proposed_height2 : ℤ := pyInt (sf * (defined_res.height : ℚ))
      (proposed_height2, pyInt ((proposed_height2 : ℚ) * img_aspect_ratio))
  let proposed_resize_dir : ResizeDir :=
    if proposed_res.2 ≤ (img_res.2 : ℤ) then ResizeDir.shrink else ResizeDir.scale
  let factor_q ← py_div (proposed_res.2 : ℚ) (img_res.2 : ℚ)
  let proposed_resize_factor : ℤ := pyInt factor_q
  let resize_validity : Option Bool :=
    if proposed_resize_dir = ResizeDir.scale then
      (if (proposed_resize_factor : ℚ) ≤ tol then some true else some false)
    else none
  pure
    { img_res := img_res
      img_aspect_ratio := img_aspect_ratio
      defined_res := defined_res
      screen_factor := sf
      proposed_res := proposed_res
      proposed_resize_dir := proposed_resize_dir
      scale_tolerance := tol
      proposed_resize_factor := proposed_resize_factor
      resize_validity := resize_validity }

/-- The module-level `img_vars = defaultdict()` dictionary: each key that
`resize_type` touches, `none` when the key is absent. -/
structure ImgVars where
  img_res : Option (ℕ × ℕ)
  img_aspect_ratio : Option ℚ
  defined_res : Option Dimensions
  screen_factor : Option ℚ
  proposed_res : Option (ℤ × ℤ)
  proposed_resize_dir : Option ResizeDir
  scale_tolerance : Option ℚ
  proposed_resize_factor : Option ℤ
  resize_validity : Option (Option Bool)
deriving DecidableEq

/-- Model of `resize_type` as it actually executes: mutating the shared module-level
dictionary `s`, writing each key in source order and reading back the keys
it just wrote (lines 53-87).  Reads of dictionary entries use `getD`; every
entry read has just been written in the same call. -/
def resize_type_st (s : ImgVars) (src : Dimensions) (dres : Dimensions)
    (sf tol : ℚ) : ImgVars :=
  let s := { s with img_res := some (src.height, src.width) }
  let ar : ℚ := ((s.img_res.getD (0, 0)).2 : ℚ) / ((s.img_res.getD (0, 0)).1 : ℚ)
  let s := { s with img_aspect_ratio := some ar }
  let s := { s with defined_res := some dres }
  let s := { s with screen_factor := some sf }
  let proposed_width : ℤ :=
    pyInt (sf * (((s.defined_res.getD ⟨0, 0⟩).width : ℕ) : ℚ))
  let proposed_height : ℤ :=
    pyInt ((proposed_width : ℚ) / (s.img_aspect_ratio.getD 0))
  let pres : ℤ × ℤ :=
    if proposed_height ≤ (dres.height : ℤ) then (proposed_height, proposed_width)
    else
      let proposed_height2 : ℤ :=
        pyInt (sf * (((s.defined_res.getD ⟨0, 0⟩).height : ℕ) : ℚ))
      (proposed_height2, pyInt ((proposed_height2 : ℚ) * (s.img_aspect_ratio.getD 0)))
  let s := { s with proposed_res := some pres }
  let dir : ResizeDir :=
    if (s.proposed_res.getD (0, 0)).2 ≤ ((s.img_res.getD (0, 0)).2 : ℤ) then
      ResizeDir.shrink
    else ResizeDir.scale
  let s := { s with proposed_resize_dir := some dir }
  let s := { s with scale_tolerance := some tol }
  let factor : ℤ :=
    pyInt (((s.proposed_res.getD (0, 0)).2 : ℚ) / (((s.img_res.getD (0, 0)).2 : ℕ) : ℚ))
  let s := { s with proposed_resize_factor := some factor }
  let validity : Option Bool :=
    if s.proposed_resize_dir.getD ResizeDir.shrink = ResizeDir.scale then
      (if ((s.proposed_resize_factor.getD 0 : ℤ) : ℚ) ≤ s.scale_tolerance.getD 0 then
        some true
      else some false)
    else none
  let s := { s with resize_validity := some validity }
  s

theorem pyInt_natCast (n : ℕ) : pyInt (n : ℚ) = (n : ℤ) := by
  rw [pyInt_eq_floor (Nat.cast_nonneg n)]
  exact Int.floor_natCast n

theorem pyInt_natCast_div (n d : ℕ) :
    pyInt ((n : ℚ) / (d : ℚ)) = ((n / d : ℕ) : ℤ) := by
  rw [pyInt_eq_floor (div_nonneg (Nat.cast_nonneg n) (Nat.cast_nonneg d))]
  exact_mod_cast Rat.floor_natCast_div_natCast n d

/-- The fields of the fit plan at the program's fixed configuration
(frame (1920, 1080), screen factor 3/4, tolerance 2), re-expressed with
natural-number division.  `resize_type_eval` proves this agrees with
`resize_type`; unlike the rational arithmetic, it evaluates by `decide`. -/
structure FitNat where
  presH : ℕ
  presW : ℕ
  dir : ResizeDir
  factor : ℕ
  validity : Option Bool
deriving DecidableEq

/-- Integer form of the fixed-configuration fit computation. -/
def fitNat (h w : ℕ) : FitNat :=
  let pres : ℕ × ℕ :=
    if 810 * h / w ≤ 1920 then (810 * h / w, 810) else (1440, 1440 * w / h)
  let dir : ResizeDir := if pres.2 ≤ w then ResizeDir.shrink else ResizeDir.scale
  let factor : ℕ := pres.2 / w
  let validity : Option Bool :=
    if dir = ResizeDir.scale then
      (if factor ≤ 2 then some true else some false)
    else none
  { presH := pres.1, presW := pres.2, dir := dir, factor := factor
    validity := validity }

theorem pyInt_intNatCast_div (n d : ℕ) :
    pyInt ((((n : ℕ) : ℤ) : ℚ) / (d : ℚ)) = ((n / d : ℕ) : ℤ) := by
  rw [Int.cast_natCast]
  exact pyInt_natCast_div n d

theorem resize_type_eval (h w : ℕ) (hh : 0 < h) (hw : 0 < w) :
    (resize_type ⟨h, w⟩ ig_defined_res screen_factor scale_tolerance).proposed_res
        = (((fitNat h w).presH : ℤ), ((fitNat h w).presW : ℤ)) ∧
    (resize_type ⟨h, w⟩ ig_defined_res screen_factor scale_tolerance).proposed_resize_dir
        = (fitNat h w).dir ∧
    (resize_type ⟨h, w⟩ ig_defined_res screen_factor scale_tolerance).proposed_resize_factor
        = ((fitNat h w).factor : ℤ) ∧
    (resize_type ⟨h, w⟩ ig_defined_res screen_factor scale_tolerance).resize_validity
        = (fitNat h w).validity := by
  have hwq : (0 : ℚ) < (w : ℚ) := by exact_mod_cast hw
  have hhq : (0 : ℚ) < (h : ℚ) := by exact_mod_cast hh
  have e1 : screen_factor * ((1080 : ℕ) : ℚ) = ((810 : ℕ) : ℚ) := by
    norm_num [screen_factor]
  have e3 : screen_factor * ((1920 : ℕ) : ℚ) = ((1440 : ℕ) : ℚ) := by
    norm_num [screen_factor]
  have e2 : (((810 : ℕ) : ℤ) : ℚ) / ((w : ℚ) / (h : ℚ))
      = ((810 * h : ℕ) : ℚ) / ((w : ℕ) : ℚ) := by
    rw [div_div_eq_mul_div]
    push_cast
    ring
  have e4 : (((1440 : ℕ) : ℤ) : ℚ) * ((w : ℚ) / (h : ℚ))
      = ((1440 * w : ℕ) : ℚ) / ((h : ℕ) : ℚ) := by
    rw [mul_div_assoc']
    push_cast
    ring
  simp only [resize_type, fitNat, ig_defined_res]
  rw [e1, pyInt_natCast, e2, pyInt_natCast_div]
  by_cases hc : 810 * h / w ≤ 1920
  · have hcz : ((810 * h / w : ℕ) : ℤ) ≤ ((1920 : ℕ) : ℤ) := by exact_mod_cast hc
    rw [if_pos hcz, if_pos hc, pyInt_intNatCast_div]
    by_cases hd : 810 ≤ w
    · have hdz : (((810 : ℕ) : ℤ)) ≤ ((w : ℕ) : ℤ) := by exact_mod_cast hd
      simp only [if_pos hdz, if_pos hd]
      have hns : ¬ (ResizeDir.shrink = ResizeDir.scale) := by decide
      rw [if_neg hns, if_neg hns]
      exact ⟨trivial, trivial, trivial, rfl⟩
    · have hdz : ¬ (((810 : ℕ) : ℤ)) ≤ ((w : ℕ) : ℤ) := by exact_mod_cast hd
      simp only [if_neg hdz, if_neg hd]
      by_cases ht : 810 / w ≤ 2
      · have htq : ((((810 / w : ℕ) : ℤ)) : ℚ) ≤ scale_tolerance := by
          rw [scale_tolerance]
          exact_mod_cast ht
        simp only [if_true]
        rw [if_pos htq, if_pos ht]
        exact ⟨trivial, trivial, trivial, rfl⟩
      · have htq : ¬ ((((810 / w : ℕ) : ℤ)) : ℚ) ≤ scale_tolerance := by
          rw [scale_tolerance]
          exact_mod_cast ht
        simp only [if_true]
        rw [if_neg htq, if_neg ht]
        exact ⟨trivial, trivial, trivial, rfl⟩
  · have hcz : ¬ ((810 * h / w : ℕ) : ℤ) ≤ ((1920 : ℕ) : ℤ) := by exact_mod_cast hc
    rw [if_neg hcz, if_neg hc, e3, pyInt_natCast, e4, pyInt_natCast_div,
      pyInt_intNatCast_div]
    by_cases hd : 1440 * w / h ≤ w
    · have hdz : ((1440 * w / h : ℕ) : ℤ) ≤ ((w : ℕ) : ℤ) := by exact_mod_cast hd
      simp only [if_pos hdz, if_pos hd]
      have hns : ¬ (ResizeDir.shrink = ResizeDir.scale) := by decide
      rw [if_neg hns, if_neg hns]
      exact ⟨trivial, trivial, trivial, rfl⟩
    · have hdz : ¬ ((1440 * w / h : ℕ) : ℤ) ≤ ((w : ℕ) : ℤ) := by exact_mod_cast hd
      simp only [if_neg hdz, if_neg hd]
      by_cases ht : 1440 * w / h / w ≤ 2
      · have htq : ((((1440 * w / h / w : ℕ) : ℤ)) : ℚ) ≤ scale_tolerance := by
          rw [scale_tolerance]
          exact_mod_cast ht
        simp only [if_true]
        rw [if_pos htq, if_pos ht]
        exact ⟨trivial, trivial, trivial, rfl⟩
      · have htq : ¬ ((((1440 * w / h / w : ℕ) : ℤ)) : ℚ) ≤ scale_tolerance := by
          rw [scale_tolerance]
          exact_mod_cast ht
        simp only [if_true]
        rw [if_neg htq, if_neg ht]
        exact ⟨trivial, trivial, trivial, rfl⟩

theorem pyInt_neg_eq {q : ℚ} (h : q < 0) : pyInt q = -⌊-q⌋ := by
  have h0 : q.num < 0 := by
    by_contra hc
    exact absurd (Rat.num_nonneg.mp (not_lt.mp hc)) (not_le.mpr h)
  rw [pyInt, if_pos h0]
  congr 1
  rw [Rat.floor_def, Rat.neg_num, Rat.neg_den]

theorem pyInt_intCast_div_two (n : ℤ) (hn : 0 ≤ n) :
    pyInt ((n : ℚ) / 2) = n / 2 := by
  have h2 : ((n : ℚ) / 2) = ((n : ℚ) / ((2 : ℕ) : ℚ)) := by norm_num
  rw [h2, pyInt_eq_floor (div_nonneg (by exact_mod_cast hn) (by norm_num))]
  exact Rat.floor_intCast_div_natCast n 2

theorem resize_type_width_nonneg (src dres : Dimensions) (sf tol : ℚ)
    (hsf : 0 ≤ sf) : 0 ≤ (resize_type src dres sf tol).proposed_res.2 := by
  simp only [resize_type]
  split
  · exact pyInt_nonneg (mul_nonneg hsf (Nat.cast_nonneg _))
  · exact pyInt_nonneg (mul_nonneg
      (by exact_mod_cast pyInt_nonneg (mul_nonneg hsf (Nat.cast_nonneg _)))
      (div_nonneg (Nat.cast_nonneg _) (Nat.cast_nonneg _)))

theorem dir_validity_general (pres : ℤ × ℤ) (w : ℕ) (tol : ℚ) :
    ((if pres.2 ≤ (w : ℤ) then ResizeDir.shrink else ResizeDir.scale) = ResizeDir.shrink
        ↔ pres.2 ≤ (w : ℤ)) ∧
    ((if (if pres.2 ≤ (w : ℤ) then ResizeDir.shrink else ResizeDir.scale) = ResizeDir.scale
        then (if (pyInt ((pres.2 : ℚ) / (w : ℚ)) : ℚ) ≤ tol then some true else some false)
        else (none : Option Bool)).isSome = true
      ↔ (if pres.2 ≤ (w : ℤ) then ResizeDir.shrink else ResizeDir.scale) = ResizeDir.scale) := by
  by_cases hd : pres.2 ≤ (w : ℤ)
  · simp [hd]
  · by_cases ht : (pyInt ((pres.2 : ℚ) / (w : ℚ)) : ℚ) ≤ tol
    · simp [hd, ht]
    · simp [hd, ht]

theorem validity_iff_general (dir : ResizeDir) (factor : ℤ) (tol : ℚ)
    (hdir : dir = ResizeDir.scale) :
    ((if dir = ResizeDir.scale
        then (if (factor : ℚ) ≤ tol then some true else some false)
        else (none : Option Bool)) = some true ↔ (factor : ℚ) ≤ tol) := by
  subst hdir
  by_cases ht : (factor : ℚ) ≤ tol
  · simp [ht]
  · simp [ht]

/-- C1: for every strictly positive source, with the fixed configuration
(frame (1920, 1080) as height x width, screen factor 0.75), the proposed
destination satisfies height ≤ 1920 and width ≤ 1080. -/
theorem planFit_fits (src : Dimensions) (hh : 0 < src.height) (hw : 0 < src.width) :
    (resize_type src ig_defined_res screen_factor scale_tolerance).proposed_res.1 ≤ 1920 ∧
    (resize_type src ig_defined_res screen_factor scale_tolerance).proposed_res.2 ≤ 1080 := by
  obtain ⟨h, w⟩ := src
  replace hh : 0 < h := hh
  replace hw : 0 < w := hw
  rw [(resize_type_eval h w hh hw).1]
  have key : (fitNat h w).presH ≤ 1920 ∧ (fitNat h w).presW ≤ 1080 := by
    simp only [fitNat]
    by_cases hc : 810 * h / w ≤ 1920
    · simp only [if_pos hc]
      exact ⟨hc, by norm_num⟩
    · simp only [if_neg hc]
      refine ⟨by norm_num, ?_⟩
      have h1 : 1921 * w ≤ 810 * h := by
        have h0 : 1921 ≤ 810 * h / w := by omega
        exact (Nat.le_div_iff_mul_le hw).mp h0
      have h2 : 1440 * w / h < 1081 := by
        rw [Nat.div_lt_iff_lt_mul hh]
        omega
      omega
  constructor
  · show ((fitNat h w).presH : ℤ) ≤ 1920
    exact_mod_cast key.1
  · show ((fitNat h w).presW : ℤ) ≤ 1080
    exact_mod_cast key.2

theorem planFit_fits_witness :
    0 < (1000 : ℕ) ∧
    ((resize_type ⟨1000, 1000⟩ ig_defined_res screen_factor scale_tolerance).proposed_res.1 ≤ 1920 ∧
     (resize_type ⟨1000, 1000⟩ ig_defined_res screen_factor scale_tolerance).proposed_res.2 ≤ 1080) :=
  ⟨by decide, planFit_fits ⟨1000, 1000⟩ (by decide) (by decide)⟩

/-- C2: for every positive source, the aspect ratio is sourceWidth/sourceHeight
and the destination is exactly the spec's width-first, height-first-fallback
floor computation. -/
theorem planFit_algorithm (src dres : Dimensions) (sf tol : ℚ)
    (hh : 0 < src.height) (hw : 0 < src.width) (hsf : 0 ≤ sf) :
    (resize_type src dres sf tol).img_aspect_ratio = (src.width : ℚ) / (src.height : ℚ) ∧
    (resize_type src dres sf tol).proposed_res = proposed_res_spec src dres sf :=
  ⟨rfl, resize_type_proposed_res_eq src dres sf tol hh hw hsf⟩

theorem planFit_algorithm_witness :
    0 < (3 : ℕ) ∧ 0 < (4 : ℕ) ∧ (0 : ℚ) ≤ 1 ∧
    ((resize_type ⟨3, 4⟩ ⟨10, 10⟩ 1 1).img_aspect_ratio = ((4 : ℕ) : ℚ) / ((3 : ℕ) : ℚ) ∧
     (resize_type ⟨3, 4⟩ ⟨10, 10⟩ 1 1).proposed_res = proposed_res_spec ⟨3, 4⟩ ⟨10, 10⟩ 1) :=
  ⟨by decide, by decide, zero_le_one,
    planFit_algorithm ⟨3, 4⟩ ⟨10, 10⟩ 1 1 (by decide) (by decide) zero_le_one⟩

/-- C3: direction is shrink exactly when the proposed width is at most the
source width (ties classify as shrink), and the validity field is non-null
exactly when the direction is scale. -/
theorem planFit_direction_iff (src dres : Dimensions) (sf tol : ℚ)
    (hh : 0 < src.height) (hw : 0 < src.width) :
    ((resize_type src dres sf tol).proposed_resize_dir = ResizeDir.shrink ↔
      (resize_type src dres sf tol).proposed_res.2 ≤ (src.width : ℤ)) ∧
    ((resize_type src dres sf tol).resize_validity.isSome = true ↔
      (resize_type src dres sf tol).proposed_resize_dir = ResizeDir.scale) :=
  dir_validity_general (resize_type src dres sf tol).proposed_res src.width tol

theorem planFit_direction_iff_witness :
    0 < (1000 : ℕ) ∧
    (((resize_type ⟨1000, 1000⟩ ig_defined_res screen_factor scale_tolerance).proposed_resize_dir
        = ResizeDir.shrink ↔
      (resize_type ⟨1000, 1000⟩ ig_defined_res screen_factor scale_tolerance).proposed_res.2
        ≤ ((1000 : ℕ) : ℤ)) ∧
     ((resize_type ⟨1000, 1000⟩ ig_defined_res screen_factor scale_tolerance).resize_validity.isSome
        = true ↔
      (resize_type ⟨1000, 1000⟩ ig_defined_res screen_factor scale_tolerance).proposed_resize_dir
        = ResizeDir.scale)) :=
  ⟨by decide, planFit_direction_iff ⟨1000, 1000⟩ ig_defined_res screen_factor scale_tolerance
    (by decide) (by decide)⟩

/-- C4: the resize factor is floor(destinationWidth / sourceWidth); when the
direction is scale, validity is exactly (factor ≤ tolerance); and the
100 x 100 scenario yields destination (810, 810), direction scale, factor 8,
validity false. -/
theorem planFit_resize_factor (src dres : Dimensions) (sf tol : ℚ)
    (hh : 0 < src.height) (hw : 0 < src.width) (hsf : 0 ≤ sf) :
    ((resize_type src dres sf tol).proposed_resize_factor =
        ⌊((resize_type src dres sf tol).proposed_res.2 : ℚ) / (src.width : ℚ)⌋) ∧
    ((resize_type src dres sf tol).proposed_resize_dir = ResizeDir.scale →
      ((resize_type src dres sf tol).resize_validity = some true ↔
        ((resize_type src dres sf tol).proposed_resize_factor : ℚ) ≤ tol)) ∧
    ((resize_type ⟨100, 100⟩ ig_defined_res screen_factor scale_tolerance).proposed_res
        = (810, 810) ∧
     (resize_type ⟨100, 100⟩ ig_defined_res screen_factor scale_tolerance).proposed_resize_dir
        = ResizeDir.scale ∧
     (resize_type ⟨100, 100⟩ ig_defined_res screen_factor scale_tolerance).proposed_resize_factor
        = 8 ∧
     (resize_type ⟨100, 100⟩ ig_defined_res screen_factor scale_tolerance).resize_validity
        = some false) := by
  refine ⟨?_, ?_, ?_, ?_, ?_, ?_⟩
  · exact pyInt_eq_floor (div_nonneg
      (by exact_mod_cast resize_type_width_nonneg src dres sf tol hsf)
      (Nat.cast_nonneg _))
  · intro hdir
    exact validity_iff_general (resize_type src dres sf tol).proposed_resize_dir
      (resize_type src dres sf tol).proposed_resize_factor tol hdir
  · rw [(resize_type_eval 100 100 (by decide) (by decide)).1]
    decide
  · rw [(resize_type_eval 100 100 (by decide) (by decide)).2.1]
    decide
  · rw [(resize_type_eval 100 100 (by decide) (by decide)).2.2.1]
    decide
  · rw [(resize_type_eval 100 100 (by decide) (by decide)).2.2.2]
    decide

theorem planFit_resize_factor_witness :
    0 < (2 : ℕ) ∧ 0 < (3 : ℕ) ∧ (0 : ℚ) ≤ 1 ∧
    (((resize_type ⟨2, 3⟩ ⟨5, 7⟩ 1 0).proposed_resize_factor =
        ⌊((resize_type ⟨2, 3⟩ ⟨5, 7⟩ 1 0).proposed_res.2 : ℚ) / ((3 : ℕ) : ℚ)⌋) ∧
     ((resize_type ⟨2, 3⟩ ⟨5, 7⟩ 1 0).proposed_resize_dir = ResizeDir.scale →
       ((resize_type ⟨2, 3⟩ ⟨5, 7⟩ 1 0).resize_validity = some true ↔
         ((resize_type ⟨2, 3⟩ ⟨5, 7⟩ 1 0).proposed_resize_factor : ℚ) ≤ 0)) ∧
     ((resize_type ⟨100, 100⟩ ig_defined_res screen_factor scale_tolerance).proposed_res
         = (810, 810) ∧
      (resize_type ⟨100, 100⟩ ig_defined_res screen_factor scale_tolerance).proposed_resize_dir
         = ResizeDir.scale ∧
      (resize_type ⟨100, 100⟩ ig_defined_res screen_factor scale_tolerance).proposed_resize_factor
         = 8 ∧
      (resize_type ⟨100, 100⟩ ig_defined_res screen_factor scale_tolerance).resize_validity
         = some false)) :=
  ⟨by decide, by decide, zero_le_one,
    planFit_resize_factor ⟨2, 3⟩ ⟨5, 7⟩ 1 0 (by decide) (by decide) zero_le_one⟩

/-- C5 counterexample: the positive source 1 x 1000 (height 1, width 1000)
is planned to destination height int(810/1000) = 0, so the destination is
not strictly positive on both components. -/
theorem planFit_positive_cex :
    ¬ (0 < (resize_type ⟨1, 1000⟩ ig_defined_res screen_factor scale_tolerance).proposed_res.1 ∧
       0 < (resize_type ⟨1, 1000⟩ ig_defined_res screen_factor scale_tolerance).proposed_res.2) := by
  rw [(resize_type_eval 1 1000 (by decide) (by decide)).1]
  decide

/-- C5 amended: for positive sources whose aspect ratio is not extreme
(width ≤ 810 x height and height ≤ 1440 x width), the fixed-configuration
destination has both components strictly positive. -/
theorem planFit_positive_amended (src : Dimensions)
    (hh : 0 < src.height) (hw : 0 < src.width)
    (hwide : src.width ≤ 810 * src.height) (htall : src.height ≤ 1440 * src.width) :
    0 < (resize_type src ig_defined_res screen_factor scale_tolerance).proposed_res.1 ∧
    0 < (resize_type src ig_defined_res screen_factor scale_tolerance).proposed_res.2 := by
  obtain ⟨h, w⟩ := src
  replace hh : 0 < h := hh
  replace hw : 0 < w := hw
  replace hwide : w ≤ 810 * h := hwide
  replace htall : h ≤ 1440 * w := htall
  rw [(resize_type_eval h w hh hw).1]
  have key : 0 < (fitNat h w).presH ∧ 0 < (fitNat h w).presW := by
    simp only [fitNat]
    by_cases hc : 810 * h / w ≤ 1920
    · simp only [if_pos hc]
      exact ⟨Nat.div_pos hwide hw, by norm_num⟩
    · simp only [if_neg hc]
      exact ⟨by norm_num, Nat.div_pos htall hh⟩
  constructor
  · show (0 : ℤ) < ((fitNat h w).presH : ℤ)
    exact_mod_cast key.1
  · show (0 : ℤ) < ((fitNat h w).presW : ℤ)
    exact_mod_cast key.2

theorem planFit_positive_amended_witness :
    0 < (1000 : ℕ) ∧ 0 < (500 : ℕ) ∧ (500 : ℕ) ≤ 810 * 1000 ∧ (1000 : ℕ) ≤ 1440 * 500 ∧
    (0 < (resize_type ⟨1000, 500⟩ ig_defined_res screen_factor scale_tolerance).proposed_res.1 ∧
     0 < (resize_type ⟨1000, 500⟩ ig_defined_res screen_factor scale_tolerance).proposed_res.2) :=
  ⟨by decide, by decide, by decide, by decide,
    planFit_positive_amended ⟨1000, 500⟩ (by decide) (by decide) (by decide) (by decide)⟩

/-- C6 counterexample: frame (10, 10) with destination (13, 4) (height
exceeding the frame) gives y1 = int(-1.5) = -1, not floor(-1.5) = -2, so
the universally quantified floor formula fails. -/
theorem compose_offsets_floor_cex :
    (add_pip_vars ⟨10, 10⟩ (13, 4)).2.y1 ≠ ⌊(((10 : ℕ) : ℚ) - ((13 : ℤ) : ℚ)) / 2⌋ := by
  have h1 : (add_pip_vars ⟨10, 10⟩ (13, 4)).2.y1 = -1 := by
    show pyInt ((((10 : ℤ) - 13 : ℤ) : ℚ) / 2) = -1
    rw [show ((((10 : ℤ) - 13 : ℤ) : ℚ) / 2) = ((-3 : ℚ) / 2) from by norm_num]
    rw [pyInt_neg_eq (by norm_num)]
    rw [show (-((-3 : ℚ) / 2)) = (((3 : ℤ) : ℚ) / ((2 : ℕ) : ℚ)) from by norm_num]
    rw [Rat.floor_intCast_div_natCast]
    decide
  have h2 : ⌊(((10 : ℕ) : ℚ) - ((13 : ℤ) : ℚ)) / 2⌋ = -2 := by
    rw [show ((((10 : ℕ) : ℚ) - ((13 : ℤ) : ℚ)) / 2) = (((-3 : ℤ) : ℚ) / ((2 : ℕ) : ℚ)) from by
      norm_num]
    rw [Rat.floor_intCast_div_natCast]
    decide
  rw [h1, h2]
  decide

/-- C6 amended: for destinations that do not exceed the frame componentwise,
the offsets are the floor formulas (there truncation and floor agree), the
rectangle widths are exact, and the rectangle lies inside the frame.
(Without that restriction the code truncates toward zero, which differs
from floor when the destination exceeds the frame by an odd amount.) -/
theorem compose_offsets_spec (fd : Dimensions) (dh dw : ℕ)
    (hdh : dh ≤ fd.height) (hdw : dw ≤ fd.width) :
    (add_pip_vars fd ((dh : ℤ), (dw : ℤ))).2.y1 = ⌊((fd.height : ℚ) - (dh : ℚ)) / 2⌋ ∧
    (add_pip_vars fd ((dh : ℤ), (dw : ℤ))).2.x1 = ⌊((fd.width : ℚ) - (dw : ℚ)) / 2⌋ ∧
    (add_pip_vars fd ((dh : ℤ), (dw : ℤ))).2.x2
        = (add_pip_vars fd ((dh : ℤ), (dw : ℤ))).2.x1 + (dw : ℤ) ∧
    (add_pip_vars fd ((dh : ℤ), (dw : ℤ))).2.y2
        = (add_pip_vars fd ((dh : ℤ), (dw : ℤ))).2.y1 + (dh : ℤ) ∧
    (add_pip_vars fd ((dh : ℤ), (dw : ℤ))).2.x2
        - (add_pip_vars fd ((dh : ℤ), (dw : ℤ))).2.x1 = (dw : ℤ) ∧
    (add_pip_vars fd ((dh : ℤ), (dw : ℤ))).2.y2
        - (add_pip_vars fd ((dh : ℤ), (dw : ℤ))).2.y1 = (dh : ℤ) ∧
    0 ≤ (add_pip_vars fd ((dh : ℤ), (dw : ℤ))).2.x1 ∧
    (add_pip_vars fd ((dh : ℤ), (dw : ℤ))).2.x2 ≤ (fd.width : ℤ) ∧
    0 ≤ (add_pip_vars fd ((dh : ℤ), (dw : ℤ))).2.y1 ∧
    (add_pip_vars fd ((dh : ℤ), (dw : ℤ))).2.y2 ≤ (fd.height : ℤ) := by
  have hdhz : (0 : ℤ) ≤ (fd.height : ℤ) - (dh : ℤ) :=
    sub_nonneg.mpr (by exact_mod_cast hdh)
  have hdwz : (0 : ℤ) ≤ (fd.width : ℤ) - (dw : ℤ) :=
    sub_nonneg.mpr (by exact_mod_cast hdw)
  have hy : (add_pip_vars fd ((dh : ℤ), (dw : ℤ))).2.y1
      = ((fd.height : ℤ) - (dh : ℤ)) / 2 := by
    show pyInt ((((fd.height : ℤ) - (dh : ℤ) : ℤ) : ℚ) / 2)
        = ((fd.height : ℤ) - (dh : ℤ)) / 2
    exact pyInt_intCast_div_two _ hdhz
  have hx : (add_pip_vars fd ((dh : ℤ), (dw : ℤ))).2.x1
      = ((fd.width : ℤ) - (dw : ℤ)) / 2 := by
    show pyInt ((((fd.width : ℤ) - (dw : ℤ) : ℤ) : ℚ) / 2)
        = ((fd.width : ℤ) - (dw : ℤ)) / 2
    exact pyInt_intCast_div_two _ hdwz
  have hfy : ⌊((fd.height : ℚ) - (dh : ℚ)) / 2⌋ = ((fd.height : ℤ) - (dh : ℤ)) / 2 := by
    rw [show (((fd.height : ℚ) - (dh : ℚ)) / 2)
        = ((((fd.height : ℤ) - (dh : ℤ) : ℤ) : ℚ) / ((2 : ℕ) : ℚ)) from by push_cast; ring]
    exact Rat.floor_intCast_div_natCast _ 2
  have hfx : ⌊((fd.width : ℚ) - (dw : ℚ)) / 2⌋ = ((fd.width : ℤ) - (dw : ℤ)) / 2 := by
    rw [show (((fd.width : ℚ) - (dw : ℚ)) / 2)
        = ((((fd.width : ℤ) - (dw : ℤ) : ℤ) : ℚ) / ((2 : ℕ) : ℚ)) from by push_cast; ring]
    exact Rat.floor_intCast_div_natCast _ 2
  have hx2 : (add_pip_vars fd ((dh : ℤ), (dw : ℤ))).2.x2
      = (add_pip_vars fd ((dh : ℤ), (dw : ℤ))).2.x1 + (dw : ℤ) := rfl
  have hy2 : (add_pip_vars fd ((dh : ℤ), (dw : ℤ))).2.y2
      = (add_pip_vars fd ((dh : ℤ), (dw : ℤ))).2.y1 + (dh : ℤ) := rfl
  refine ⟨by rw [hy, hfy], by rw [hx, hfx], hx2, hy2, ?_, ?_, ?_, ?_, ?_, ?_⟩
  · rw [hx2, hx]
    omega
  · rw [hy2, hy]
    omega
  · rw [hx]
    omega
  · rw [hx2, hx]
    omega
  · rw [hy]
    omega
  · rw [hy2, hy]
    omega

theorem compose_offsets_spec_witness :
    (4 : ℕ) ≤ (10 : ℕ) ∧ (6 : ℕ) ≤ (20 : ℕ) ∧
    ((add_pip_vars ⟨10, 20⟩ (((4 : ℕ) : ℤ), ((6 : ℕ) : ℤ))).2.y1
        = ⌊(((10 : ℕ) : ℚ) - ((4 : ℕ) : ℚ)) / 2⌋ ∧
     (add_pip_vars ⟨10, 20⟩ (((4 : ℕ) : ℤ), ((6 : ℕ) : ℤ))).2.x1
        = ⌊(((20 : ℕ) : ℚ) - ((6 : ℕ) : ℚ)) / 2⌋ ∧
     (add_pip_vars ⟨10, 20⟩ (((4 : ℕ) : ℤ), ((6 : ℕ) : ℤ))).2.x2
        = (add_pip_vars ⟨10, 20⟩ (((4 : ℕ) : ℤ), ((6 : ℕ) : ℤ))).2.x1 + ((6 : ℕ) : ℤ) ∧
     (add_pip_vars ⟨10, 20⟩ (((4 : ℕ) : ℤ), ((6 : ℕ) : ℤ))).2.y2
        = (add_pip_vars ⟨10, 20⟩ (((4 : ℕ) : ℤ), ((6 : ℕ) : ℤ))).2.y1 + ((4 : ℕ) : ℤ) ∧
     (add_pip_vars ⟨10, 20⟩ (((4 : ℕ) : ℤ), ((6 : ℕ) : ℤ))).2.x2
        - (add_pip_vars ⟨10, 20⟩ (((4 : ℕ) : ℤ), ((6 : ℕ) : ℤ))).2.x1 = ((6 : ℕ) : ℤ) ∧
     (add_pip_vars ⟨10, 20⟩ (((4 : ℕ) : ℤ), ((6 : ℕ) : ℤ))).2.y2
        - (add_pip_vars ⟨10, 20⟩ (((4 : ℕ) : ℤ), ((6 : ℕ) : ℤ))).2.y1 = ((4 : ℕ) : ℤ) ∧
     0 ≤ (add_pip_vars ⟨10, 20⟩ (((4 : ℕ) : ℤ), ((6 : ℕ) : ℤ))).2.x1 ∧
     (add_pip_vars ⟨10, 20⟩ (((4 : ℕ) : ℤ), ((6 : ℕ) : ℤ))).2.x2 ≤ ((20 : ℕ) : ℤ) ∧
     0 ≤ (add_pip_vars ⟨10, 20⟩ (((4 : ℕ) : ℤ), ((6 : ℕ) : ℤ))).2.y1 ∧
     (add_pip_vars ⟨10, 20⟩ (((4 : ℕ) : ℤ), ((6 : ℕ) : ℤ))).2.y2 ≤ ((10 : ℕ) : ℤ)) :=
  ⟨by decide, by decide, compose_offsets_spec ⟨10, 20⟩ 4 6 (by decide) (by decide)⟩

/-- C7: for destinations within the frame, the left margin x1 equals the
right margin frameWidth - destinationWidth - x1 to within 1 pixel, and
likewise vertically. -/
theorem compose_offsets_centering (fd : Dimensions) (dh dw : ℕ)
    (hdh : dh ≤ fd.height) (hdw : dw ≤ fd.width) :
    |(add_pip_vars fd ((dh : ℤ), (dw : ℤ))).2.x1 -
        ((fd.width : ℤ) - (dw : ℤ) - (add_pip_vars fd ((dh : ℤ), (dw : ℤ))).2.x1)| ≤ 1 ∧
    |(add_pip_vars fd ((dh : ℤ), (dw : ℤ))).2.y1 -
        ((fd.height : ℤ) - (dh : ℤ) - (add_pip_vars fd ((dh : ℤ), (dw : ℤ))).2.y1)| ≤ 1 := by
  have hdhz : (0 : ℤ) ≤ (fd.height : ℤ) - (dh : ℤ) :=
    sub_nonneg.mpr (by exact_mod_cast hdh)
  have hdwz : (0 : ℤ) ≤ (fd.width : ℤ) - (dw : ℤ) :=
    sub_nonneg.mpr (by exact_mod_cast hdw)
  have hy : (add_pip_vars fd ((dh : ℤ), (dw : ℤ))).2.y1
      = ((fd.height : ℤ) - (dh : ℤ)) / 2 := by
    show pyInt ((((fd.height : ℤ) - (dh : ℤ) : ℤ) : ℚ) / 2)
        = ((fd.height : ℤ) - (dh : ℤ)) / 2
    exact pyInt_intCast_div_two _ hdhz
  have hx : (add_pip_vars fd ((dh : ℤ), (dw : ℤ))).2.x1
      = ((fd.width : ℤ) - (dw : ℤ)) / 2 := by
    show pyInt ((((fd.width : ℤ) - (dw : ℤ) : ℤ) : ℚ) / 2)
        = ((fd.width : ℤ) - (dw : ℤ)) / 2
    exact pyInt_intCast_div_two _ hdwz
  rw [hx, hy]
  refine ⟨abs_le.mpr ⟨?_, ?_⟩, abs_le.mpr ⟨?_, ?_⟩⟩ <;> omega

theorem compose_offsets_centering_witness :
    (4 : ℕ) ≤ (10 : ℕ) ∧ (6 : ℕ) ≤ (20 : ℕ) ∧
    (|(add_pip_vars ⟨10, 20⟩ (((4 : ℕ) : ℤ), ((6 : ℕ) : ℤ))).2.x1 -
        (((20 : ℕ) : ℤ) - ((6 : ℕ) : ℤ)
          - (add_pip_vars ⟨10, 20⟩ (((4 : ℕ) : ℤ), ((6 : ℕ) : ℤ))).2.x1)| ≤ 1 ∧
     |(add_pip_vars ⟨10, 20⟩ (((4 : ℕ) : ℤ), ((6 : ℕ) : ℤ))).2.y1 -
        (((10 : ℕ) : ℤ) - ((4 : ℕ) : ℤ)
          - (add_pip_vars ⟨10, 20⟩ (((4 : ℕ) : ℤ), ((6 : ℕ) : ℤ))).2.y1)| ≤ 1) :=
  ⟨by decide, by decide, compose_offsets_centering ⟨10, 20⟩ 4 6 (by decide) (by decide)⟩

/-- C8: the canvas built per image is a fresh buffer of frame dimensions
with 3 channels, every pixel (128, 128, 128); after the paste into the
offset rectangle, every pixel outside that rectangle still reads 128 and
the shape is unchanged. -/
theorem paste_outside_gray (fd : Dimensions) (pr : ℤ × ℤ) (coords : OffsetRect)
    (resized_img : ℕ → ℕ → ℕ → ℕ) (y x c : ℕ)
    (hout : ¬ (coords.y1 ≤ (y : ℤ) ∧ (y : ℤ) < coords.y2 ∧
        coords.x1 ≤ (x : ℤ) ∧ (x : ℤ) < coords.x2)) :
    (add_pip_vars fd pr).1.height = fd.height ∧
    (add_pip_vars fd pr).1.width = fd.width ∧
    (add_pip_vars fd pr).1.channels = 3 ∧
    (∀ y' x' c', (add_pip_vars fd pr).1.pixel y' x' c' = 128) ∧
    (paste_region (add_pip_vars fd pr).1 coords resized_img).height = fd.height ∧
    (paste_region (add_pip_vars fd pr).1 coords resized_img).width = fd.width ∧
    (paste_region (add_pip_vars fd pr).1 coords resized_img).channels = 3 ∧
    (paste_region (add_pip_vars fd pr).1 coords resized_img).pixel y x c = 128 := by
  refine ⟨rfl, rfl, rfl, fun _ _ _ => rfl, rfl, rfl, rfl, ?_⟩
  show (if coords.y1 ≤ (y : ℤ) ∧ (y : ℤ) < coords.y2 ∧
      coords.x1 ≤ (x : ℤ) ∧ (x : ℤ) < coords.x2 then
    resized_img ((y : ℤ) - coords.y1).toNat ((x : ℤ) - coords.x1).toNat c
  else (add_pip_vars fd pr).1.pixel y x c) = 128
  rw [if_neg hout]
  rfl

theorem paste_outside_gray_witness :
    ¬ ((OffsetRect.mk 0 1 0 1).y1 ≤ ((3 : ℕ) : ℤ) ∧
       ((3 : ℕ) : ℤ) < (OffsetRect.mk 0 1 0 1).y2 ∧
       (OffsetRect.mk 0 1 0 1).x1 ≤ ((0 : ℕ) : ℤ) ∧
       ((0 : ℕ) : ℤ) < (OffsetRect.mk 0 1 0 1).x2) ∧
    ((add_pip_vars ⟨2, 3⟩ (1, 1)).1.height = 2 ∧
     (add_pip_vars ⟨2, 3⟩ (1, 1)).1.width = 3 ∧
     (add_pip_vars ⟨2, 3⟩ (1, 1)).1.channels = 3 ∧
     (∀ y' x' c', (add_pip_vars ⟨2, 3⟩ (1, 1)).1.pixel y' x' c' = 128) ∧
     (paste_region (add_pip_vars ⟨2, 3⟩ (1, 1)).1 (OffsetRect.mk 0 1 0 1)
        (fun _ _ _ => 7)).height = 2 ∧
     (paste_region (add_pip_vars ⟨2, 3⟩ (1, 1)).1 (OffsetRect.mk 0 1 0 1)
        (fun _ _ _ => 7)).width = 3 ∧
     (paste_region (add_pip_vars ⟨2, 3⟩ (1, 1)).1 (OffsetRect.mk 0 1 0 1)
        (fun _ _ _ => 7)).channels = 3 ∧
     (paste_region (add_pip_vars ⟨2, 3⟩ (1, 1)).1 (OffsetRect.mk 0 1 0 1)
        (fun _ _ _ => 7)).pixel 3 0 0 = 128) :=
  ⟨by decide, paste_outside_gray ⟨2, 3⟩ (1, 1) (OffsetRect.mk 0 1 0 1)
    (fun _ _ _ => 7) 3 0 0 (by decide)⟩

/-- C9: the checked fit computation fails (hits a division by zero) exactly
when the source height or width is zero; on strictly positive sources it
succeeds and returns exactly the unchecked plan. -/
theorem planFit_total (src dres : Dimensions) (sf tol : ℚ) :
    (resize_type_checked src dres sf tol = none ↔ src.height = 0 ∨ src.width = 0) ∧
    (0 < src.height → 0 < src.width →
      resize_type_checked src dres sf tol = some (resize_type src dres sf tol)) := by
  by_cases hh : src.height = 0
  · constructor
    · have hq : ((src.height : ℕ) : ℚ) = 0 := by exact_mod_cast hh
      simp [resize_type_checked, py_div, hq, hh]
    · intro h0 _
      omega
  · by_cases hw : src.width = 0
    · have hhq : ((src.height : ℕ) : ℚ) ≠ 0 := by exact_mod_cast hh
      have harz : ((src.width : ℕ) : ℚ) / ((src.height : ℕ) : ℚ) = 0 := by
        rw [show (((src.width : ℕ)) : ℚ) = 0 from by exact_mod_cast hw, zero_div]
      constructor
      · simp [resize_type_checked, py_div, hhq, harz, hw]
      · intro _ h1
        omega
    · have hhq : ((src.height : ℕ) : ℚ) ≠ 0 := by exact_mod_cast hh
      have hwq : ((src.width : ℕ) : ℚ) ≠ 0 := by exact_mod_cast hw
      have har : ((src.width : ℕ) : ℚ) / ((src.height : ℕ) : ℚ) ≠ 0 := div_ne_zero hwq hhq
      constructor
      · simp [resize_type_checked, py_div, hhq, hwq, har, hh, hw]
      · intro _ _
        simp [resize_type_checked, py_div, hhq, hwq, har, resize_type]

theorem planFit_total_witness :
    0 < (100 : ℕ) ∧
    resize_type_checked ⟨100, 100⟩ ig_defined_res 1 0
      = some (resize_type ⟨100, 100⟩ ig_defined_res 1 0) :=
  ⟨by decide, (planFit_total ⟨100, 100⟩ ig_defined_res 1 0).2 (by decide) (by decide)⟩

/-- C10: the dictionary-mutating execution of the fit computation gives the
same final dictionary from any starting state (every key it reads it has
just written), is idempotent, and its fit fields agree with the pure
computation - so two calls on identical inputs yield identical plans. -/
theorem planFit_stateless (s t : ImgVars) (src dres : Dimensions) (sf tol : ℚ) :
    resize_type_st s src dres sf tol = resize_type_st t src dres sf tol ∧
    resize_type_st (resize_type_st s src dres sf tol) src dres sf tol
      = resize_type_st s src dres sf tol ∧
    (resize_type_st s src dres sf tol).proposed_res
      = some (resize_type src dres sf tol).proposed_res ∧
    (resize_type_st s src dres sf tol).proposed_resize_dir
      = some (resize_type src dres sf tol).proposed_resize_dir ∧
    (resize_type_st s src dres sf tol).proposed_resize_factor
      = some (resize_type src dres sf tol).proposed_resize_factor ∧
    (resize_type_st s src dres sf tol).resize_validity
      = some (resize_type src dres sf tol).resize_validity :=
  ⟨rfl, rfl, rfl, rfl, rfl, rfl⟩
